import Mathlib

set_option maxRecDepth 100000

/-!
Verification development for the `npc_mvr` video/sync alignment library
(`src/npc_mvr/mvr.py`). The Python functions relevant to the claims are
shallowly embedded below:

* pure numeric code is translated to `Int`/`Nat` arithmetic; real-valued
  (float) quantities are represented as exact unnormalized fractions
  (`Frac`, an integer numerator with a positive integer denominator),
  since none of the modelled code depends on float rounding error;
* fallible code (Python exceptions) is translated to `Except PyError`;
* numpy arrays become `List`s; `NaN` entries of a timestamp array become
  `Option.none`;
* Python dynamic values that can hold several runtime types are embedded
  as small inductive sum types (`PyVal`, `JsonValue`).

Each definition carries a comment pointing at the source lines it embeds.
-/

/-- The Python exceptions raised by the embedded code paths. Payload-free
constructors; the comment on each names the exact Python exception and
message. -/
inductive PyError
  /-- Python `IndexError: list index out of range` (e.g. `xs[0]` on an empty array). -/
  | indexError
  /-- Python `KeyError` from a missing dict key (e.g. `info["LostFrames"]`). -/
  | keyError
  /-- Python `AssertionError` from a failing `assert` statement. -/
  | assertionError
  /-- Python `ValueError: x is not in tuple` raised by `tuple.index`. -/
  | valueErrorNotInTuple
  /-- Python `ValueError: cannot convert float NaN to integer` (`round` of the
  mean of an empty array). -/
  | valueErrorNanToInt
  /-- numpy `ValueError: operands could not be broadcast together` (numpy
  subtraction of arrays of different lengths). -/
  | valueErrorBroadcast
  /-- Python `ValueError: invalid literal for int()`. -/
  | valueErrorIntParse
  /-- Python `ValueError: min() arg is an empty sequence`. -/
  | valueErrorMinEmpty
  /-- Python `ValueError: FrameID imprint not enabled in video` (mvr.py line 731). -/
  | valueErrorImprintNotEnabled
deriving DecidableEq, Repr

/-- An exact rational value `num / den`, kept unnormalized (no gcd
reduction) so that all arithmetic kernel-reduces. Every `Frac` built by the
embedded code has `den > 0`. Used to model the float quantities of the
source (sync timestamps in seconds, pixel means). -/
structure Frac where
  num : ℤ
  den : ℤ
deriving DecidableEq, Repr

/-- Addition of exact fractions. -/
def Frac.add (a b : Frac) : Frac := ⟨a.num * b.den + b.num * a.den, a.den * b.den⟩

/-- Subtraction of exact fractions. -/
def Frac.sub (a b : Frac) : Frac := ⟨a.num * b.den - b.num * a.den, a.den * b.den⟩

/-- Multiplication of exact fractions. -/
def Frac.mul (a b : Frac) : Frac := ⟨a.num * b.num, a.den * b.den⟩

/-- Division of exact fractions (the embedded code only divides by positive
values). -/
def Frac.div (a b : Frac) : Frac := ⟨a.num * b.den, a.den * b.num⟩

/-- Comparison `a ≤ b` by cross-multiplication; valid because all
denominators built by the embedded code are positive. -/
def Frac.ble (a b : Frac) : Bool := a.num * b.den ≤ b.num * a.den

instance : Add Frac := ⟨Frac.add⟩
instance : Sub Frac := ⟨Frac.sub⟩
instance : Mul Frac := ⟨Frac.mul⟩
instance : Div Frac := ⟨Frac.div⟩
instance : Zero Frac := ⟨⟨0, 1⟩⟩
instance : NatCast Frac := ⟨fun n => ⟨(n : ℤ), 1⟩⟩
instance (n : ℕ) : OfNat Frac n := ⟨⟨(n : ℤ), 1⟩⟩

/-- Python's built-in `round` (also `np.round`) on an exact rational value:
round half to even ("banker's rounding"). Assumes `x.den > 0`, which holds
for every `Frac` the embedded code builds. `r` is the (scaled) fractional
part: `x = f + r / x.den` with `0 ≤ r < x.den`. -/
def pyRound (x : Frac) : ℤ :=
  let f := Int.fdiv x.num x.den
  let r := x.num - f * x.den
  if 2 * r < x.den then f
  else if x.den < 2 * r then f + 1
  else if f % 2 = 0 then f else f + 1

/-! Section: Frame-time reconstruction (mvr.py `remove_lost_frame_times`,
`get_video_frame_times`) -/

/-- mvr.py lines 570-579: `remove_lost_frame_times(frame_times, lost_frame_idx)`
returns `np.array([t for idx, t in enumerate(frame_times) if idx not in
lost_frame_idx])`. Generic in the element type, as the source is
(`Iterable[NumericT]`). -/
def remove_lost_frame_times {α : Type} (frame_times : List α) (lost_frame_idx : List ℕ) : List α :=
  (frame_times.enum.filter (fun it => decide (it.1 ∉ lost_frame_idx))).map Prod.snd

/-- Reference formulation of "drop exactly the entries whose 0-indexed
position is in `lost`, keeping the rest in order", written as a plain index
counting recursion (used to state claim C5 non-tautologically). -/
def removeIdxSpec {α : Type} (lost : List ℕ) : ℕ → List α → List α
  | _, [] => []
  | i, t :: rest =>
    if i ∈ lost then removeIdxSpec lost (i + 1) rest
    else t :: removeIdxSpec lost (i + 1) rest

/-- mvr.py lines 461-466: the per-camera timestamp list after lost-frame
removal (line 461-464) and `np.insert(camera_frame_times, 0, np.nan)`
(line 466). `Option.none` models `np.nan`; the sync-clock timestamps
themselves are generic, as no arithmetic is performed on them. -/
def uncorrected_camera_frame_times {α : Type} (exposing : List α) (lost : List ℕ) :
    List (Option α) :=
  Option.none :: (remove_lost_frame_times exposing lost).map Option.some

/-- mvr.py lines 469-483: with `apply_correction`, append
`np.full(frames_missing_from_sync, np.nan)` when the video holds more
frames than timestamps (`num_frames_in_video - len(camera_frame_times) > 0`,
with Python integer subtraction, modelled by the Nat-subtraction positivity
test), else truncate with `camera_frame_times[:num_frames_in_video]` when
there are more timestamps than video frames. -/
def corrected_frame_times {α : Type} (t0 : List (Option α)) (num_frames_in_video : ℕ)
    (apply_correction : Bool) : List (Option α) :=
  if apply_correction ∧ num_frames_in_video - t0.length > 0 then
    t0 ++ List.replicate (num_frames_in_video - t0.length) Option.none
  else if apply_correction ∧ t0.length > num_frames_in_video then
    t0.take num_frames_in_video
  else t0

/-- mvr.py lines 456-490: the loop body of `get_video_frame_times` for one
camera, from the exposing-line rising-edge times (already resolved to this
camera), the lost-frame indices from the camera's info json, and the number
of frames in the video file. Lines 484-489: with `apply_correction`,
`assert len(camera_frame_times) == num_frames_in_video` (an `AssertionError`
on mismatch). The enclosing function — which reaches this body only after
the unconditional resolver call of line 447 — is `get_video_frame_times`,
defined below after the resolver. -/
def get_video_frame_times_single_camera {α : Type} (exposing : List α) (lost : List ℕ)
    (num_frames_in_video : ℕ) (apply_correction : Bool) :
    Except PyError (List (Option α)) :=
  let l := corrected_frame_times (uncorrected_camera_frame_times exposing lost)
    num_frames_in_video apply_correction
  if apply_correction ∧ l.length ≠ num_frames_in_video then Except.error PyError.assertionError
  else Except.ok l

/-! Section: Lost-frame span parsing (mvr.py `get_lost_frames_from_camera_info`) -/

/-- Python `str.split(sep)` for a single-character separator, on the
character list of the string: `"".split(",") == [""]`,
`"1-2".split("-") == ["1", "2"]`. -/
def splitOnChar (c : Char) : List Char → List (List Char)
  | [] => [[]]
  | x :: xs =>
    let r := splitOnChar c xs
    if x = c then [] :: r
    else
      match r with
      | [] => [[x]]
      | h :: t => (x :: h) :: t

/-- Decimal digit accumulation for `pyInt`; `Option.none` is "no digit seen
yet / malformed". -/
def parseDigits : List Char → Option ℕ → Option ℕ
  | [], acc => acc
  | c :: cs, acc =>
    if ('0' ≤ c ∧ c ≤ '9') then
      let d := c.toNat - Char.toNat '0'
      match acc with
      | Option.none => parseDigits cs (some d)
      | some a => parseDigits cs (some (a * 10 + d))
    else Option.none

/-- Python `int(s)` on the characters of `s`, for the plain decimal strings
(optionally negative) that appear in lost-frame spans. (Python additionally
strips whitespace and accepts a leading `+`; those inputs never occur here
and are not modelled.) Raises `ValueError` on a malformed literal. -/
def pyInt : List Char → Except PyError ℤ
  | '-' :: rest =>
    match parseDigits rest Option.none with
    | some n => Except.ok (-(n : ℤ))
    | Option.none => Except.error PyError.valueErrorIntParse
  | cs =>
    match parseDigits cs Option.none with
    | some n => Except.ok ((n : ℤ))
    | Option.none => Except.error PyError.valueErrorIntParse

/-- The run `[a, a+1, ..., a+n-1]`: `n` consecutive integers starting at `a`. -/
def np_arange_aux (a : ℤ) : ℕ → List ℤ
  | 0 => []
  | n + 1 => a :: np_arange_aux (a + 1) n

/-- numpy `np.arange(a, b)` for integer arguments: `[a, a+1, ..., b-1]`, empty when
`b ≤ a`. -/
def np_arange (a b : ℤ) : List ℤ := np_arange_aux a (b - a).toNat

/-- mvr.py lines 548-553, the body of the span loop: `span.split("-")`; a
single component contributes `[int(s)]`, two or more components contribute
`np.arange(int(s0), int(s1) + 1)` (components past the second are ignored
by the source). `span.split` never yields an empty list; that case is
unreachable and mapped to the `int("")` `ValueError`. -/
def parse_span (span : List Char) : Except PyError (List ℤ) :=
  match splitOnChar '-' span with
  | [s] => do
    let a ← pyInt s
    Except.ok [a]
  | s0 :: s1 :: _ => do
    let a ← pyInt s0
    let b ← pyInt s1
    Except.ok (np_arange a (b + 1))
  | [] => Except.error PyError.valueErrorIntParse

/-- mvr.py lines 547-553: the loop collecting indices across all
comma-separated spans, in order. -/
def parse_lost_frame_spans : List (List Char) → Except PyError (List ℤ)
  | [] => Except.ok []
  | span :: rest => do
    let xs ← parse_span span
    let ys ← parse_lost_frame_spans rest
    Except.ok (xs ++ ys)

/-- The runtime shape of `info["LostFrames"]`: either a Python list (of
span strings) or some non-list value (failing the source's `isinstance`
assert). -/
inductive InfoLostFrames
  /-- a Python `list` whose elements are span strings. -/
  | list (l : List (List Char))
  /-- any non-`list` value. -/
  | notAList
deriving DecidableEq, Repr

/-- The fields of a camera's `RecordingReport` that
`get_lost_frames_from_camera_info` reads. `Option.none` models an absent
key. -/
structure MVRCameraInfo where
  framesLostCount : Option ℤ
  lostFrames : Option InfoLostFrames
deriving DecidableEq, Repr

/-- mvr.py lines 532-555: `get_lost_frames_from_camera_info`.
`info.get("FramesLostCount") == 0` short-circuits to an empty array
(line 541-542); otherwise `assert isinstance(info["LostFrames"], list)`
(line 544; `KeyError` when the key is missing), `info["LostFrames"][0]`
(`IndexError` on an empty list), split on commas, expand every span, and
`np.subtract(lost_frames, 1)` at the end (line 555: the stored spans are
1-indexed). -/
def get_lost_frames_from_camera_info (info : MVRCameraInfo) : Except PyError (List ℤ) :=
  if info.framesLostCount = some 0 then Except.ok []
  else
    match info.lostFrames with
    | Option.none => Except.error PyError.keyError
    | some InfoLostFrames.notAList => Except.error PyError.assertionError
    | some (InfoLostFrames.list []) => Except.error PyError.indexError
    | some (InfoLostFrames.list (s :: _)) => do
      let xs ← parse_lost_frame_spans (splitOnChar ',' s)
      Except.ok (xs.map (fun x => x - 1))

/-! Section: Validator check 7 (mvr.py `MVRDataset.validate` lines 297-307,
`is_acceptable_expected_minus_actual_frame_count` lines 318-321) -/

/-- mvr.py lines 318-321: `abs(expected_minus_actual) < 20`. -/
def is_acceptable_expected_minus_actual_frame_count (expected_minus_actual : ℤ) : Bool :=
  |expected_minus_actual| < 20

/-- mvr.py lines 297-307: the final check of `MVRDataset.validate` for one
camera. `expected_minus_actual = num_frames_expected_from_sync -
num_frames_in_video` (line 207-209); when it is not acceptable, the check
still passes if `num_frames_expected_from_sync == num_frames_from_sync`
(the uncorrected sync-derived timestamp count, line 210-216), else it
raises `AssertionError`. -/
def expected_minus_actual_check (num_frames_expected_from_sync num_frames_in_video
    num_frames_from_sync : ℤ) : Except PyError Unit :=
  if ¬ (is_acceptable_expected_minus_actual_frame_count
      (num_frames_expected_from_sync - num_frames_in_video) = true) then
    if num_frames_expected_from_sync ≠ num_frames_from_sync then
      Except.error PyError.assertionError
    else Except.ok ()
  else Except.ok ()

/-! Section: Line identity resolver (mvr.py `get_camera_sync_line_name_mapping`,
lines 340-402) -/

/-- The three logical camera roles (`CameraName` in mvr.py). -/
inductive Role
  | behavior
  | face
  | eye
deriving DecidableEq, Repr

/-- The three role name abbreviations used in sync line labels
(`CameraNameOnSync` in mvr.py: `beh`, `face`, `eye`). -/
inductive SyncCam
  | beh
  | face
  | eye
deriving DecidableEq, Repr

/-- The two sync line kinds per camera: `_cam_exposing` and
`_cam_frame_readout`. -/
inductive LineKind
  | exposing
  | frameReadout
deriving DecidableEq, Repr

/-- A sync line label `<rolePrefix>_cam_<kind>`, structured. -/
abbrev SyncLine : Type := SyncCam × LineKind

/-- mvr.py lines 324-333 `get_camera_name`, applied to a sync role
abbreviation (`beh`, `face`, `eye`): fuzzy substring matching resolves each
abbreviation to its role. -/
def get_camera_name : SyncCam → Role
  | SyncCam.beh => Role.behavior
  | SyncCam.face => Role.face
  | SyncCam.eye => Role.eye

/-- mvr.py lines 335-338 `get_camera_name_on_sync`, applied to a sync line
label: the substring matching recovers the label's role abbreviation. -/
def get_camera_name_on_sync : SyncLine → SyncCam := Prod.fst

/-- mvr.py line 358: `camera_names_on_sync = ('beh', 'face', 'eye')`. -/
def camera_names_on_sync : List SyncCam := [SyncCam.beh, SyncCam.face, SyncCam.eye]

/-- The six sync lines in the iteration order of mvr.py lines 379-384
(outer loop over `camera_names_on_sync`, inner loop over
`('_cam_exposing', '_cam_frame_readout')`). -/
def allSyncLines : List SyncLine :=
  [(SyncCam.beh, LineKind.exposing), (SyncCam.beh, LineKind.frameReadout),
   (SyncCam.face, LineKind.exposing), (SyncCam.face, LineKind.frameReadout),
   (SyncCam.eye, LineKind.exposing), (SyncCam.eye, LineKind.frameReadout)]

/-- The sync dataset interface the resolver consumes
(`npc_sync.SyncDataset.get_rising_edges` / `get_falling_edges`, in
seconds): per line, the ordered edge times. -/
structure SyncData where
  rising : SyncCam → LineKind → List Frac
  falling : SyncCam → LineKind → List Frac

/-- mvr.py lines 379-384 `get_start_times_on_sync`: the first rising edge
(`[0]`, an `IndexError` when a line has no edges) of each of the six lines,
as an insertion-ordered dict (association list). -/
def get_start_times_on_sync (sync : SyncData) : Except PyError (List (SyncLine × Frac)) :=
  allSyncLines.mapM (fun l =>
    match sync.rising l.1 l.2 with
    | [] => Except.error PyError.indexError
    | t :: _ => Except.ok (l, t))

/-- Stable insertion of `x` after every element `y` with `le y x` — the
building block of `stableSort`. -/
def stableInsert {α : Type} (le : α → α → Bool) (x : α) : List α → List α
  | [] => [x]
  | y :: ys => if le y x then y :: stableInsert le x ys else x :: y :: ys

/-- A stable ascending sort (Python's `sorted` is stable; mvr.py line 386
sorts the six line labels by their start time). -/
def stableSort {α : Type} (le : α → α → Bool) (xs : List α) : List α :=
  xs.foldl (fun acc x => stableInsert le x acc) []

/-- A Python runtime value appearing in the tuple searched at mvr.py
line 399: `lines_sorted_by_start_time` holds line-label strings, while the
value passed to `.index` is a float start time. Distinct constructors are
never `==` in Python (`str.__eq__(float)` is `NotImplemented` and the
reflected comparison is `False`). -/
inductive PyVal
  /-- a line-label string. -/
  | line (l : SyncLine)
  /-- a float (an edge time in seconds). -/
  | num (q : Frac)
deriving DecidableEq, Repr

/-- Helper for `tuple.index(v)`: the index of the first element equal to
`v`, counting from `i`. -/
def pyIndexAux (v : PyVal) : List PyVal → ℕ → Option ℕ
  | [], _ => Option.none
  | x :: xs, i => if x = v then some i else pyIndexAux v xs (i + 1)

/-- Python `tuple.index(v)`: the position of the first occurrence of `v`,
or `ValueError: x is not in tuple` when `v` does not occur. -/
def tupleIndex (xs : List PyVal) (v : PyVal) : Except PyError ℕ :=
  match pyIndexAux v xs 0 with
  | Option.none => Except.error PyError.valueErrorNotInTuple
  | some i => Except.ok i

/-- The running-minimum recursion behind Python's `min(xs, key=f)`: scan
the remaining elements, replacing the current minimum `m` only on a
strictly smaller key (so the first minimum wins ties). -/
def pyMinByAux {α : Type} (f : α → ℤ) (m : α) : List α → α
  | [] => m
  | x :: rest => if f x < f m then pyMinByAux f x rest else pyMinByAux f m rest

/-- Python `min(xs, key=f)`: the first element attaining the minimal key,
`Option.none` on an empty sequence. Models mvr.py lines 393-396. -/
def pyMinBy {α : Type} (xs : List α) (f : α → ℤ) : Option α :=
  match xs with
  | [] => Option.none
  | x :: rest => some (pyMinByAux f x rest)

/-- mvr.py lines 367-377 `get_exposure_fingerprint_durations_from_sync`:
for each role abbreviation, `round((falling_edges[:8] - rising_edges[:8]).mean() * 1000)`
over its `_cam_exposing` line. numpy subtraction of unequal-length slices
raises (broadcast error; numpy's size-1 broadcasting special case never
arises here and is not modelled), and `round` of the `nan` mean of empty
slices raises `ValueError`. -/
def get_exposure_fingerprint_durations_from_sync (sync : SyncData) :
    Except PyError (List (SyncCam × ℤ)) :=
  camera_names_on_sync.mapM (fun p =>
    let f := (sync.falling p LineKind.exposing).take 8
    let r := (sync.rising p LineKind.exposing).take 8
    if f.length = r.length then
      if f.length = 0 then Except.error PyError.valueErrorNanToInt
      else Except.ok (p, pyRound ((List.zipWith (fun x y => x - y) f r).sum
        / ((f.length : ℕ) : Frac) * 1000))
    else Except.error PyError.valueErrorBroadcast)

/-- Dict lookup `start_times_on_sync[line]` (a `KeyError` is impossible for
the keys used by the resolver, but modelled for totality). -/
def dictLookup (d : List (SyncLine × Frac)) (k : SyncLine) : Except PyError Frac :=
  match d.find? (fun pr => decide (pr.1 = k)) with
  | Option.none => Except.error PyError.keyError
  | some pr => Except.ok pr.2

/-- mvr.py lines 390-401, one iteration of the resolver loop for role
abbreviation `p`, AS WRITTEN IN THE SOURCE: compute `expected_duration`
from the role's json (`CustomInitialExposureTime`), pick the exposing line
with minimal `abs(expected_duration - actual)` (line 393-396), record the
mapping entry (line 397), then check the wiring-order assumption
(line 399): `lines_sorted_by_start_time.index(start_times_on_sync[exposing_line])`.
Note the source passes the float START TIME to `tuple.index`, not the line
label, so this lookup searches a tuple of labels for a float. -/
def resolve_camera (startTimes : List (SyncLine × Frac)) (linesSorted : List PyVal)
    (actualDurs : List (SyncCam × ℤ)) (customInitialExposureTime : Role → ℤ)
    (p : SyncCam) : Except PyError (Role × SyncCam) := do
  let actualLine ←
    match pyMinBy actualDurs
        (fun pr => |customInitialExposureTime (get_camera_name p) - pr.2|) with
    | Option.none => Except.error PyError.valueErrorMinEmpty
    | some pr => Except.ok pr.1
  let tExp ← dictLookup startTimes (p, LineKind.exposing)
  let a ← tupleIndex linesSorted (PyVal.num tExp)
  let tRead ← dictLookup startTimes (p, LineKind.frameReadout)
  let b ← tupleIndex linesSorted (PyVal.num tRead)
  if a + 1 = b then Except.ok (get_camera_name p, actualLine)
  else Except.error PyError.assertionError

/-- mvr.py lines 340-402 `get_camera_sync_line_name_mapping`, as written in
the source: gather the six first-rising-edge times, sort the line labels by
start time (line 386, Python's stable sort), compute the expected (json)
and actual (sync) fingerprint durations, and run the loop of lines 390-401
over `('beh', 'face', 'eye')` (unrolled), collecting the
role-to-abbreviation mapping entries. `customInitialExposureTime` is each
role's `CustomInitialExposureTime` metadata field (lines 359-365). -/
def get_camera_sync_line_name_mapping (sync : SyncData)
    (customInitialExposureTime : Role → ℤ) : Except PyError (List (Role × SyncCam)) := do
  let startTimes ← get_start_times_on_sync sync
  let linesSorted := (stableSort (fun x y => Frac.ble x.2 y.2) startTimes).map
    (fun pr => PyVal.line pr.1)
  let actualDurs ← get_exposure_fingerprint_durations_from_sync sync
  let e1 ← resolve_camera startTimes linesSorted actualDurs customInitialExposureTime SyncCam.beh
  let e2 ← resolve_camera startTimes linesSorted actualDurs customInitialExposureTime SyncCam.face
  let e3 ← resolve_camera startTimes linesSorted actualDurs customInitialExposureTime SyncCam.eye
  Except.ok [e1, e2, e3]

/-- The INTENDED iteration of the resolver loop: identical to
`resolve_camera` except that `tuple.index` is applied to the line LABELS
(`exposing_line` / `readout_line`) instead of their start times — what the
assert's own error message, the function's doctest (mvr.py lines 349-351)
and the spec describe. -/
def resolve_camera_intended (linesSorted : List PyVal)
    (actualDurs : List (SyncCam × ℤ)) (customInitialExposureTime : Role → ℤ)
    (p : SyncCam) : Except PyError (Role × SyncCam) := do
  let actualLine ←
    match pyMinBy actualDurs
        (fun pr => |customInitialExposureTime (get_camera_name p) - pr.2|) with
    | Option.none => Except.error PyError.valueErrorMinEmpty
    | some pr => Except.ok pr.1
  let a ← tupleIndex linesSorted (PyVal.line (p, LineKind.exposing))
  let b ← tupleIndex linesSorted (PyVal.line (p, LineKind.frameReadout))
  if a + 1 = b then Except.ok (get_camera_name p, actualLine)
  else Except.error PyError.assertionError

/-- Variant of `get_camera_sync_line_name_mapping` with the intended wiring-order
check (see `resolve_camera_intended`); used to demonstrate that with the
one-token fix the function behaves as the claims describe. -/
def get_camera_sync_line_name_mapping_intended (sync : SyncData)
    (customInitialExposureTime : Role → ℤ) : Except PyError (List (Role × SyncCam)) := do
  let startTimes ← get_start_times_on_sync sync
  let linesSorted := (stableSort (fun x y => Frac.ble x.2 y.2) startTimes).map
    (fun pr => PyVal.line pr.1)
  let actualDurs ← get_exposure_fingerprint_durations_from_sync sync
  let e1 ← resolve_camera_intended linesSorted actualDurs
    customInitialExposureTime SyncCam.beh
  let e2 ← resolve_camera_intended linesSorted actualDurs
    customInitialExposureTime SyncCam.face
  let e3 ← resolve_camera_intended linesSorted actualDurs
    customInitialExposureTime SyncCam.eye
  Except.ok [e1, e2, e3]

/-- mvr.py lines 404-491 `get_video_frame_times`, whole function: after the
path discovery and json loading of lines 441-446 (out of scope here — the
session's cameras, their parsed lost-frame indices and their video frame
counts are inputs), line 447 UNCONDITIONALLY calls
`get_camera_sync_line_name_mapping`; lines 448-449 only log a warning;
lines 450-454 remap each camera's exposing times through the resolved
mapping (`camera_exposing_times[get_camera_name(correct_sync_line_names[camera])]`,
a dict access raising `KeyError` on a missing role); lines 456-490 run the
per-camera body (`get_video_frame_times_single_camera`). The real loop
iterates the exposing-times dict in sync-line-label order; a fixed role
order is used here, which is observationally irrelevant because the
resolver call of line 447 raises on every input (see
`get_camera_sync_line_name_mapping_never_ok`). -/
def get_video_frame_times (sync : SyncData) (customInitialExposureTime : Role → ℤ)
    (lost_frame_idx : Role → List ℕ) (num_frames_in_video : Role → ℕ)
    (apply_correction : Bool) : Except PyError (List (Role × List (Option Frac))) := do
  let correct_sync_line_names ← get_camera_sync_line_name_mapping sync customInitialExposureTime
  [Role.behavior, Role.face, Role.eye].mapM (fun camera => do
    let onSync ← match correct_sync_line_names.lookup camera with
      | Option.none => Except.error PyError.keyError
      | some c => Except.ok c
    let times ← get_video_frame_times_single_camera
      (sync.rising onSync LineKind.exposing) (lost_frame_idx camera)
      (num_frames_in_video camera) apply_correction
    Except.ok (camera, times))

/-! Section: Barcode decoder (mvr.py `get_barcode_value` lines 647-686,
`get_barcode_value_from_frame` lines 688-702,
`get_frame_number_from_barcode` lines 709-734) -/

/-- A single-channel image region: rows of pixel luminance values
(`np.uint8`, 0..255). -/
abbrev PixelImage : Type := List (List ℤ)

/-- numpy column slice `img[:, a:b]` (clamped at the row ends, as numpy
slicing is). -/
def colSlice (img : PixelImage) (a b : ℕ) : PixelImage :=
  img.map (fun row => (row.drop a).take (b - a))

/-- The `np.mean` of a 2D region: sum of all entries over their count, as an
exact fraction. (numpy yields `nan` for an empty region; the embedded
`Frac` value then has denominator 0, and no claim exercises that case.) -/
def npMean (img : PixelImage) : Frac :=
  ⟨(img.flatten).sum, ((img.flatten).length : ℤ)⟩

/-- mvr.py lines 650-668, one bit cell: with `border = 1`, `value_size = 4`,
`num_values_per_group = 4`, `group_size = 4 * (4 + 1 * 2) = 24`,
`group_separator = 3`: group `g` spans columns
`[g * 27, g * 27 + 24)` of the strip, and cell `v` spans columns
`[(4 + 1) * v + (v + 1) * 1, ... + 4)` of the group. The cell's mean
luminance is normalized by `np.round(mean / 255 * 2 - 1)` to
black `-1` / grey `0` / white `1`. -/
def cell_norm (img : PixelImage) (group_idx value_idx : ℕ) : ℤ :=
  let group_start := group_idx * (24 + 3)
  let group_image := colSlice img group_start (group_start + 24)
  let value_start := (4 + 1) * value_idx + (value_idx + 1) * 1
  let value_image := colSlice group_image value_start (value_start + 4)
  pyRound (npMean value_image / 255 * 2 - 1)

/-- mvr.py lines 657-668: the 20 normalized cell values in image order
(5 groups of 4 cells, group-major). -/
def barcode_values (img : PixelImage) : List ℤ :=
  (List.range 5).flatMap (fun g => (List.range 4).map (fun v => cell_norm img g v))

/-- mvr.py line 679, the metadata-frame heuristic condition:
`all(x == 1 for x in exponent_values) and round(np.mean(barcode_image)) > 250`
(`exponent_values` is the reversed cell list; membership is the same either
way). -/
def metadata_frame_condition (img : PixelImage) : Bool :=
  (barcode_values img).reverse.all (fun x => x == 1) &&
    decide (250 < pyRound (npMean img))

/-- mvr.py lines 682-686: `value = sum of 2 ** exponent over exponents
whose value is 1`, accumulated over `enumerate(exponent_values)`. -/
def decode_bits (exponent_values : List ℤ) : ℤ :=
  exponent_values.enum.foldl
    (fun acc ev => if ev.2 = 1 then acc + 2 ^ ev.1 else acc) 0

/-- mvr.py lines 647-686 `get_barcode_value`: cell values are reversed into
bit-significance order (line 669); the metadata-frame heuristic
short-circuits to 0 (lines 679-681); otherwise the white bits are summed
(lines 682-686). -/
def get_barcode_value (img : PixelImage) : ℤ :=
  if metadata_frame_condition img then 0
  else decode_bits (barcode_values img).reverse

/-- mvr.py lines 688-702 `get_barcode_value_from_frame` (after the frame
fetch and crop, which are taken as the input image here): decode the
barcode, and `assert frame_number == 0` whenever the decoded value is 0. -/
def get_barcode_value_from_frame (img : PixelImage) (frame_number : ℤ) :
    Except PyError ℤ :=
  let value := get_barcode_value img
  if value = 0 ∧ ¬ frame_number = 0 then Except.error PyError.assertionError
  else Except.ok value

/-- A Python json-derived scalar value, as stored in a camera's info dict. -/
inductive JsonValue
  /-- a Python `bool`. -/
  | bool (b : Bool)
  /-- a Python `str`. -/
  | str (s : List Char)
  /-- a Python `int`. -/
  | int (n : ℤ)
deriving DecidableEq, Repr

/-- Python `==` between two such values: equal types compare by value, and
`bool` compares equal to the `int` of the same truth value (`True == 1`);
every other cross-type comparison is `False` — in particular no `bool` or
`int` ever equals a `str`. -/
def pyEq : JsonValue → JsonValue → Bool
  | JsonValue.bool a, JsonValue.bool b => a == b
  | JsonValue.str a, JsonValue.str b => a == b
  | JsonValue.int a, JsonValue.int b => a == b
  | JsonValue.bool a, JsonValue.int b => (if a then 1 else 0) == b
  | JsonValue.int a, JsonValue.bool b => a == (if b then 1 else 0)
  | _, _ => false

/-- Python truthiness of such a value (`bool(v)`): `False`, `0` and the
empty string are falsy, everything else is truthy. -/
def pyTruthy : JsonValue → Bool
  | JsonValue.bool b => b
  | JsonValue.str s => !(s.isEmpty)
  | JsonValue.int n => n != 0

/-- mvr.py lines 709-734 `get_frame_number_from_barcode`:
`video_info.get("FrameID imprint enabled", False)` is compared with
`== "true"` (line 730) — an exact string comparison, NOT a truthiness
test — and a `ValueError` is raised unless it matches; otherwise the
requested frame is decoded (`get_barcode_value_from_frame`, with the frame
fetch, geometry lookup and crop of lines 732-734 taken as the input
image). `imprintFlag` is the raw value of the `"FrameID imprint enabled"`
key, `Option.none` when the key is absent. -/
def get_frame_number_from_barcode (imprintFlag : Option JsonValue)
    (img : PixelImage) (frame_number : ℤ) : Except PyError ℤ :=
  if ¬ (pyEq (imprintFlag.getD (JsonValue.bool false))
      (JsonValue.str ['t', 'r', 'u', 'e']) = true) then
    Except.error PyError.valueErrorImprintNotEnabled
  else get_barcode_value_from_frame img frame_number

/-! Section: Concrete session inputs used by the claim theorems -/

/-- Nominal `CustomInitialExposureTime` fingerprints (ms): 100 for behavior,
200 for face, 300 for eye. -/
def fingerprintsABC : Role → ℤ
  | Role.behavior => 100
  | Role.face => 200
  | Role.eye => 300

/-- A well-formed session whose wiring-order assumption HOLDS (each
readout line starts right after its exposing line) and whose measured
fingerprint durations are 100 ms on `beh`, 200 ms on `face`, 300 ms on
`eye` (the identity match for `fingerprintsABC`). Start times (s):
beh 0/0.5, face 2/2.5, eye 4/4.5. -/
def syncA : SyncData where
  rising := fun p k =>
    match p, k with
    | SyncCam.beh, LineKind.exposing => [⟨0, 1⟩]
    | SyncCam.beh, LineKind.frameReadout => [⟨1, 2⟩]
    | SyncCam.face, LineKind.exposing => [⟨2, 1⟩]
    | SyncCam.face, LineKind.frameReadout => [⟨5, 2⟩]
    | SyncCam.eye, LineKind.exposing => [⟨4, 1⟩]
    | SyncCam.eye, LineKind.frameReadout => [⟨9, 2⟩]
  falling := fun p k =>
    match p, k with
    | SyncCam.beh, LineKind.exposing => [⟨1, 10⟩]
    | SyncCam.face, LineKind.exposing => [⟨11, 5⟩]
    | SyncCam.eye, LineKind.exposing => [⟨43, 10⟩]
    | _, _ => []

/-- A session whose wiring-order assumption is VIOLATED: the first rising
edges are beh_exposing 0, face_exposing 1, beh_readout 2, so beh's readout
is not adjacent to beh's exposing line in the sorted order. Fingerprint
durations as in `syncA`. -/
def syncB : SyncData where
  rising := fun p k =>
    match p, k with
    | SyncCam.beh, LineKind.exposing => [⟨0, 1⟩]
    | SyncCam.beh, LineKind.frameReadout => [⟨2, 1⟩]
    | SyncCam.face, LineKind.exposing => [⟨1, 1⟩]
    | SyncCam.face, LineKind.frameReadout => [⟨3, 1⟩]
    | SyncCam.eye, LineKind.exposing => [⟨4, 1⟩]
    | SyncCam.eye, LineKind.frameReadout => [⟨9, 2⟩]
  falling := fun p k =>
    match p, k with
    | SyncCam.beh, LineKind.exposing => [⟨1, 10⟩]
    | SyncCam.face, LineKind.exposing => [⟨6, 5⟩]
    | SyncCam.eye, LineKind.exposing => [⟨43, 10⟩]
    | _, _ => []

/-- A mis-wired session: wiring-order assumption holds (start times as in
`syncA`), but the measured fingerprint durations are 200 ms on the `beh`
line, 100 ms on the `face` line, 300 ms on `eye` — so minimum-absolute-
difference matching against `fingerprintsABC` assigns behavior ↦ face,
face ↦ beh, eye ↦ eye. -/
def syncC : SyncData where
  rising := fun p k =>
    match p, k with
    | SyncCam.beh, LineKind.exposing => [⟨0, 1⟩]
    | SyncCam.beh, LineKind.frameReadout => [⟨1, 2⟩]
    | SyncCam.face, LineKind.exposing => [⟨2, 1⟩]
    | SyncCam.face, LineKind.frameReadout => [⟨5, 2⟩]
    | SyncCam.eye, LineKind.exposing => [⟨4, 1⟩]
    | SyncCam.eye, LineKind.frameReadout => [⟨9, 2⟩]
  falling := fun p k =>
    match p, k with
    | SyncCam.beh, LineKind.exposing => [⟨1, 5⟩]
    | SyncCam.face, LineKind.exposing => [⟨21, 10⟩]
    | SyncCam.eye, LineKind.exposing => [⟨43, 10⟩]
    | _, _ => []

/-- One 6-pixel bit-cell segment with a black cell: grey border, 4 black
pixels, grey border. -/
def blackCellSeg : List ℤ := [127, 0, 0, 0, 0, 127]

/-- One 6-pixel bit-cell segment with a white cell and dark borders. -/
def whiteCellSeg : List ℤ := [0, 255, 255, 255, 255, 0]

/-- One fully white 6-pixel segment. -/
def fullWhiteSeg : List ℤ := [255, 255, 255, 255, 255, 255]

/-- One 24-pixel group: four consecutive cell segments. -/
def groupOf (seg : List ℤ) : List ℤ := seg ++ seg ++ seg ++ seg

/-- A full 132-pixel barcode strip row: five groups separated by 3-pixel
gaps. -/
def stripRow (seg gap : List ℤ) : List ℤ :=
  groupOf seg ++ gap ++ groupOf seg ++ gap ++ groupOf seg ++ gap ++
    groupOf seg ++ gap ++ groupOf seg

/-- An all-black, all-border-correct strip: every bit cell black, every
border/separator grey. Whole-strip mean ≈ 50. -/
def allBlackStrip : PixelImage := [stripRow blackCellSeg [127, 127, 127]]

/-- A fully white strip (such as the constant-white metadata frame):
whole-strip mean 255. -/
def allWhiteStrip : PixelImage := [stripRow fullWhiteSeg [255, 255, 255]]

/-- A strip whose 20 bit cells all read white but whose borders and
separators are black, keeping the whole-strip mean (≈ 155) below the 250
threshold. -/
def whiteBitsLowStrip : PixelImage := [stripRow whiteCellSeg [0, 0, 0]]

/-! Section: Helper lemmas -/

/-- The comprehension of `remove_lost_frame_times`, expressed through the index-counting
recursion `removeIdxSpec`, generalized over the starting index. -/
theorem enumFrom_filter_map_eq_removeIdxSpec {α : Type} (lost : List ℕ) :
    ∀ (xs : List α) (i : ℕ),
      ((List.enumFrom i xs).filter (fun it => decide (it.1 ∉ lost))).map Prod.snd =
        removeIdxSpec lost i xs := by
  intro xs
  induction xs with
  | nil => intro i; rfl
  | cons x rest ih =>
    intro i
    have ih' := ih (i + 1)
    simp only [decide_not] at ih'
    rw [List.enumFrom_cons, List.filter_cons]
    by_cases h : i ∈ lost
    · simp [removeIdxSpec, h, ih']
    · simp [removeIdxSpec, h, ih']

/-- The index-counting removal always yields a sublist (order-preserving
selection) of the input. -/
theorem removeIdxSpec_sublist {α : Type} (lost : List ℕ) :
    ∀ (xs : List α) (i : ℕ), (removeIdxSpec lost i xs).Sublist xs := by
  intro xs
  induction xs with
  | nil => intro i; exact List.Sublist.refl _
  | cons x rest ih =>
    intro i
    by_cases h : i ∈ lost
    · simp only [removeIdxSpec, if_pos h]
      exact (ih (i + 1)).cons x
    · simp only [removeIdxSpec, if_neg h]
      exact (ih (i + 1)).cons₂ x

/-- Removing an empty index set keeps every entry. -/
theorem removeIdxSpec_nil_lost {α : Type} :
    ∀ (xs : List α) (i : ℕ), removeIdxSpec [] i xs = xs := by
  intro xs
  induction xs with
  | nil => intro i; rfl
  | cons x rest ih =>
    intro i
    simp only [removeIdxSpec, List.not_mem_nil, if_neg]
    exact congrArg (x :: ·) (ih (i + 1))

/-- Shape of the corrected per-camera timestamp list: its length is always
the video frame count, by truncation when the video is shorter and by
`NaN` padding when it is longer. -/
theorem corrected_frame_times_true_spec {α : Type} (t0 : List (Option α)) (V : ℕ) :
    (corrected_frame_times t0 V true).length = V ∧
    (V ≤ t0.length → corrected_frame_times t0 V true = t0.take V) ∧
    (t0.length ≤ V → corrected_frame_times t0 V true =
      t0 ++ List.replicate (V - t0.length) Option.none) := by
  unfold corrected_frame_times
  rcases Nat.lt_trichotomy t0.length V with h | h | h
  · rw [if_pos ⟨rfl, by omega⟩]
    refine ⟨?_, ?_, fun _ => rfl⟩
    · rw [List.length_append, List.length_replicate]; omega
    · intro h2; exact absurd h2 (by omega)
  · rw [if_neg (fun hc => by omega), if_neg (fun hc => by omega)]
    refine ⟨h, ?_, ?_⟩
    · intro _; rw [← h, List.take_length]
    · intro _; rw [← h]; simp
  · rw [if_neg (fun hc => by omega), if_pos ⟨rfl, h⟩]
    refine ⟨?_, fun _ => rfl, ?_⟩
    · rw [List.length_take]; omega
    · intro h2; exact absurd h2 (by omega)

/-! Section: Claim theorems -/

/-- Claim C5: for every finite sequence of timestamps and every set of lost
indices, `remove_lost_frame_times` returns the input with exactly the
positions in the lost-index set removed (the index-counting reference
recursion `removeIdxSpec`), the surviving entries keep their original
relative order (sublist), and removing an empty set returns the input
unchanged. -/
theorem claim_C5_remove_lost_frame_times {α : Type} (xs : List α) (lost : List ℕ) :
    remove_lost_frame_times xs lost = removeIdxSpec lost 0 xs ∧
    (remove_lost_frame_times xs lost).Sublist xs ∧
    remove_lost_frame_times xs [] = xs := by
  have key : ∀ (l : List ℕ), remove_lost_frame_times xs l = removeIdxSpec l 0 xs := by
    intro l
    unfold remove_lost_frame_times
    exact enumFrom_filter_map_eq_removeIdxSpec l xs 0
  refine ⟨key lost, ?_, ?_⟩
  · rw [key lost]; exact removeIdxSpec_sublist lost xs 0
  · rw [key []]; exact removeIdxSpec_nil_lost xs 0

/-- A string without the separator splits into itself alone. -/
theorem splitOnChar_eq_single {c : Char} :
    ∀ {s : List Char}, c ∉ s → splitOnChar c s = [s] := by
  intro s
  induction s with
  | nil => intro _; rfl
  | cons x xs ih =>
    intro h
    have hx : ¬ x = c := fun he => h (by simp [he])
    have hxs : c ∉ xs := fun hm => h (List.mem_cons_of_mem _ hm)
    simp only [splitOnChar, ih hxs, if_neg hx]

/-- Splitting a string of the form `s0 ++ sep ++ rest` when `s0` is
separator-free peels off `s0`. -/
theorem splitOnChar_append {c : Char} :
    ∀ {s0 : List Char} (s1 : List Char), c ∉ s0 →
      splitOnChar c (s0 ++ c :: s1) = s0 :: splitOnChar c s1 := by
  intro s0
  induction s0 with
  | nil => intro s1 _; simp [splitOnChar]
  | cons x xs ih =>
    intro s1 h
    have hx : ¬ x = c := fun he => h (by simp [he])
    have hxs : c ∉ xs := fun hm => h (List.mem_cons_of_mem _ hm)
    simp only [List.cons_append, splitOnChar, if_neg hx]
    rw [show splitOnChar c (xs.append (c :: s1)) = xs :: splitOnChar c s1 from ih s1 hxs]

/-- Membership in a consecutive-integer run. -/
theorem mem_np_arange_aux :
    ∀ (n : ℕ) (a x : ℤ), x ∈ np_arange_aux a n ↔ a ≤ x ∧ x < a + (n : ℤ) := by
  intro n
  induction n with
  | zero =>
    intro a x
    simp only [np_arange_aux, List.not_mem_nil, false_iff]
    omega
  | succ m ih =>
    intro a x
    simp only [np_arange_aux, List.mem_cons, ih (a + 1)]
    constructor
    · rintro (rfl | ⟨h1, h2⟩) <;> constructor <;> omega
    · intro ⟨h1, h2⟩
      by_cases hxa : x = a
      · exact Or.inl hxa
      · exact Or.inr ⟨by omega, by omega⟩

/-- Membership in an integer `np.arange`. -/
theorem mem_np_arange (a b x : ℤ) : x ∈ np_arange a b ↔ a ≤ x ∧ x < b := by
  unfold np_arange
  rw [mem_np_arange_aux]
  omega

/-- Claim C3: a lost-frame span `"a-b"` expands to `np.arange(a, b + 1)`, a
singleton span `"a"` to `[a]`; after the trailing 1-indexed → 0-indexed
subtraction a span covers exactly the integers from `a - 1` to `b - 1`
inclusive; and the full parse of `{'LostFrames': ['1-2,4-5,7']}` yields
exactly `[0, 1, 3, 4, 6]`. -/
theorem claim_C3_lost_frame_spans (a b : ℤ) (s0 s1 : List Char)
    (h0 : pyInt s0 = Except.ok a) (h1 : pyInt s1 = Except.ok b)
    (hn0 : '-' ∉ s0) (hn1 : '-' ∉ s1) :
    parse_span (s0 ++ '-' :: s1) = Except.ok (np_arange a (b + 1)) ∧
    parse_span s0 = Except.ok [a] ∧
    (∀ x : ℤ, x ∈ (np_arange a (b + 1)).map (fun y => y - 1) ↔ a - 1 ≤ x ∧ x ≤ b - 1) ∧
    get_lost_frames_from_camera_info
      ⟨Option.none, some (InfoLostFrames.list [['1', '-', '2', ',', '4', '-', '5', ',', '7']])⟩ =
      Except.ok [0, 1, 3, 4, 6] := by
  refine ⟨?_, ?_, ?_, rfl⟩
  · unfold parse_span
    rw [splitOnChar_append s1 hn0, splitOnChar_eq_single hn1]
    simp only [h0, h1]
    rfl
  · unfold parse_span
    rw [splitOnChar_eq_single hn0]
    simp only [h0]
    rfl
  · intro x
    simp only [List.mem_map, mem_np_arange]
    constructor
    · rintro ⟨y, hy, rfl⟩
      omega
    · intro hx
      exact ⟨x + 1, by omega, by omega⟩

/-- Witness for C3 at the concrete span `"1-2"`. -/
theorem claim_C3_witness :
    pyInt ['1'] = Except.ok 1 ∧ pyInt ['2'] = Except.ok 2 ∧
    parse_span (['1'] ++ '-' :: ['2']) = Except.ok (np_arange 1 3) :=
  ⟨rfl, rfl,
    (claim_C3_lost_frame_spans 1 2 ['1'] ['2'] rfl rfl (by decide) (by decide)).1⟩

/-- Claim C10: when `FramesLostCount` is 0 the parse returns an empty index
list whatever `LostFrames` holds (absent, malformed or present — it is
never read); when `FramesLostCount` is nonzero, a non-list `LostFrames`
fails the `isinstance` assert, an absent one raises `KeyError`, and a list
is parsed through its first element only — further elements are ignored. -/
theorem claim_C10_lost_frames_gating (lf : Option InfoLostFrames) (n : ℤ) (hn : n ≠ 0)
    (s : List Char) (rest : List (List Char)) :
    get_lost_frames_from_camera_info ⟨some 0, lf⟩ = Except.ok [] ∧
    get_lost_frames_from_camera_info ⟨some n, some InfoLostFrames.notAList⟩ =
      Except.error PyError.assertionError ∧
    get_lost_frames_from_camera_info ⟨some n, Option.none⟩ = Except.error PyError.keyError ∧
    get_lost_frames_from_camera_info ⟨some n, some (InfoLostFrames.list (s :: rest))⟩ =
      get_lost_frames_from_camera_info ⟨some n, some (InfoLostFrames.list [s])⟩ := by
  refine ⟨rfl, ?_, ?_, ?_⟩
  · unfold get_lost_frames_from_camera_info
    rw [if_neg (by simp [hn])]
  · unfold get_lost_frames_from_camera_info
    rw [if_neg (by simp [hn])]
  · unfold get_lost_frames_from_camera_info
    rw [if_neg (by simp [hn])]

/-- Witness for C10 at `FramesLostCount = 7`, first span string `"7"`, a
second (ignored) list element `"9"`. -/
theorem claim_C10_witness :
    (7 : ℤ) ≠ 0 ∧
    get_lost_frames_from_camera_info ⟨some 0, Option.none⟩ = Except.ok [] ∧
    get_lost_frames_from_camera_info ⟨some 7, some (InfoLostFrames.list [['7'], ['9']])⟩ =
      get_lost_frames_from_camera_info ⟨some 7, some (InfoLostFrames.list [['7']])⟩ := by
  have h := claim_C10_lost_frames_gating Option.none 7 (by decide) ['7'] [['9']]
  exact ⟨by decide, h.1, h.2.2.2⟩

/-- Claim C9: the final `validate` check raises exactly when the absolute
difference between the timing-system-expected frame count and the video
frame count is at least 20 AND the uncorrected sync-derived timestamp
count differs from the expected count; a difference below 20 passes
unconditionally, and an equal uncorrected count waives the check. -/
theorem claim_C9_expected_minus_actual_check (e a s : ℤ) :
    (expected_minus_actual_check e a s = Except.error PyError.assertionError ↔
      (20 ≤ |e - a| ∧ e ≠ s)) ∧
    (|e - a| < 20 → expected_minus_actual_check e a s = Except.ok ()) ∧
    (20 ≤ |e - a| → e = s → expected_minus_actual_check e a s = Except.ok ()) := by
  refine ⟨?_, ?_, ?_⟩
  · unfold expected_minus_actual_check is_acceptable_expected_minus_actual_frame_count
    by_cases h1 : |e - a| < 20
    · rw [if_neg (by simp [h1])]
      constructor
      · intro hcontra; exact absurd hcontra (by simp)
      · intro hc; exact absurd h1 (not_lt.mpr hc.1)
    · rw [if_pos (by simp [h1])]
      by_cases h2 : e = s
      · rw [if_neg (by simp [h2])]
        constructor
        · intro hcontra; exact absurd hcontra (by simp)
        · intro hc; exact absurd h2 hc.2
      · rw [if_pos h2]
        exact iff_of_true rfl ⟨not_lt.mp h1, h2⟩
  · intro h
    unfold expected_minus_actual_check is_acceptable_expected_minus_actual_frame_count
    rw [if_neg (by simp [h])]
  · intro h hes
    unfold expected_minus_actual_check is_acceptable_expected_minus_actual_frame_count
    rw [if_pos (by simp [not_lt.mpr h]), if_neg (by simp [hes])]

/-- Witness for C9: difference 50 with matching sync count is waived,
difference 50 with a differing sync count raises, difference 10 passes. -/
theorem claim_C9_witness :
    (expected_minus_actual_check 100 50 100 = Except.ok ()) ∧
    (expected_minus_actual_check 100 50 99 = Except.error PyError.assertionError) ∧
    (expected_minus_actual_check 100 90 99 = Except.ok ()) :=
  ⟨(claim_C9_expected_minus_actual_check 100 50 100).2.2 (by decide) rfl,
    (claim_C9_expected_minus_actual_check 100 50 99).1.mpr ⟨by decide, by decide⟩,
    (claim_C9_expected_minus_actual_check 100 90 99).2.1 (by decide)⟩

/-- Searching a tuple of line labels for a float start time never finds a
match (no string equals a float), whatever the start index. -/
theorem pyIndexAux_num_not_in_line_map (q : Frac) :
    ∀ (l : List (SyncLine × Frac)) (i : ℕ),
      pyIndexAux (PyVal.num q) (l.map (fun pr => PyVal.line pr.1)) i = Option.none := by
  intro l
  induction l with
  | nil => intro i; rfl
  | cons x xs ih =>
    intro i
    rw [List.map_cons]
    show (if PyVal.line x.1 = PyVal.num q then some i
      else pyIndexAux (PyVal.num q) (xs.map (fun pr => PyVal.line pr.1)) (i + 1)) = Option.none
    rw [if_neg (fun hc => PyVal.noConfusion hc)]
    exact ih (i + 1)

/-- Applying `tuple.index(start_time)` to the tuple of sorted line labels always
raises `ValueError: x is not in tuple`. -/
theorem tupleIndex_num_errors (q : Frac) (l : List (SyncLine × Frac)) :
    tupleIndex (l.map (fun pr => PyVal.line pr.1)) (PyVal.num q) =
      Except.error PyError.valueErrorNotInTuple := by
  unfold tupleIndex
  rw [pyIndexAux_num_not_in_line_map]

/-- Bind of a successful `Except` computation steps to its continuation
(used to symbolically execute the embedded `do` chains). -/
theorem except_bind_ok {ε α β : Type} (a : α) (f : α → Except ε β) :
    (Except.ok a : Except ε α) >>= f = f a := rfl

/-- One resolver-loop iteration, as written in the source, can never
complete: its wiring-order check reaches `tuple.index` with a float and
raises before the comparison. -/
theorem resolve_camera_never_ok (st ls : List (SyncLine × Frac))
    (ad : List (SyncCam × ℤ)) (cexp : Role → ℤ) (p : SyncCam)
    (x : Role × SyncCam) :
    resolve_camera st (ls.map (fun pr => PyVal.line pr.1)) ad cexp p ≠ Except.ok x := by
  intro h
  unfold resolve_camera at h
  cases hmin : pyMinBy ad (fun pr => |cexp (get_camera_name p) - pr.2|) with
  | none =>
    rw [hmin] at h
    exact Except.noConfusion h
  | some pr =>
    rw [hmin] at h
    simp only [] at h
    rw [except_bind_ok] at h
    cases hlook : dictLookup st (p, LineKind.exposing) with
    | error e =>
      rw [hlook] at h
      exact Except.noConfusion h
    | ok t =>
      rw [hlook, except_bind_ok] at h
      rw [tupleIndex_num_errors t ls] at h
      exact Except.noConfusion h

/-- The source's `get_camera_sync_line_name_mapping` never
returns a mapping on ANY input: every run raises an exception. -/
theorem get_camera_sync_line_name_mapping_never_ok (sync : SyncData)
    (cexp : Role → ℤ) (m : List (Role × SyncCam)) :
    get_camera_sync_line_name_mapping sync cexp ≠ Except.ok m := by
  intro h
  unfold get_camera_sync_line_name_mapping at h
  cases hst : get_start_times_on_sync sync with
  | error e =>
    rw [hst] at h
    exact Except.noConfusion h
  | ok st =>
    rw [hst, except_bind_ok] at h
    simp only [] at h
    cases had : get_exposure_fingerprint_durations_from_sync sync with
    | error e =>
      rw [had] at h
      exact Except.noConfusion h
    | ok ad =>
      rw [had, except_bind_ok] at h
      cases hr : resolve_camera st
          ((stableSort (fun x y => Frac.ble x.2 y.2) st).map (fun pr => PyVal.line pr.1))
          ad cexp SyncCam.beh with
      | error e =>
        rw [hr] at h
        exact Except.noConfusion h
      | ok v =>
        exact resolve_camera_never_ok st (stableSort (fun x y => Frac.ble x.2 y.2) st)
          ad cexp SyncCam.beh v hr

/-- The whole `get_video_frame_times` never returns on any input: its
first step is the unconditional resolver call of mvr.py line 447, which
always raises. -/
theorem get_video_frame_times_never_ok (sync : SyncData) (cexp : Role → ℤ)
    (lost : Role → List ℕ) (nfv : Role → ℕ) (ac : Bool)
    (out : List (Role × List (Option Frac))) :
    get_video_frame_times sync cexp lost nfv ac ≠ Except.ok out := by
  intro h
  unfold get_video_frame_times at h
  cases hr : get_camera_sync_line_name_mapping sync cexp with
  | error e =>
    rw [hr] at h
    exact Except.noConfusion h
  | ok m => exact get_camera_sync_line_name_mapping_never_ok sync cexp m hr

/-- Claim C1 (the code, not the claim, is at fault): the real
`get_video_frame_times` never returns a timestamp array for ANY session —
its unconditional resolver call (mvr.py line 447) raises the `tuple.index`
`ValueError` on every input (first conjunct: never `ok`; second: the
concrete error on the well-formed session `syncA`). The claimed behavior is
exactly what the per-camera correction body (lines 456-490) implements
(third conjunct): with correction enabled it always succeeds with an array
of length exactly the video frame count `V` — truncated to the first `V`
entries when the reconstruction is longer, padded with trailing `NaN`
entries when shorter — so the final length assert can never fire. -/
theorem claim_C1_corrected_length_invariant :
    (∀ (sync : SyncData) (cexp : Role → ℤ) (lost : Role → List ℕ)
      (nfv : Role → ℕ) (ac : Bool) (out : List (Role × List (Option Frac))),
      get_video_frame_times sync cexp lost nfv ac ≠ Except.ok out) ∧
    get_video_frame_times syncA fingerprintsABC (fun _ => []) (fun _ => 5) true =
      Except.error PyError.valueErrorNotInTuple ∧
    (∀ (α : Type) (exposing : List α) (lost : List ℕ) (V : ℕ),
      ∃ l, get_video_frame_times_single_camera exposing lost V true = Except.ok l ∧
        l.length = V ∧
        (V ≤ (uncorrected_camera_frame_times exposing lost).length →
          l = (uncorrected_camera_frame_times exposing lost).take V) ∧
        ((uncorrected_camera_frame_times exposing lost).length ≤ V →
          l = uncorrected_camera_frame_times exposing lost ++
            List.replicate (V - (uncorrected_camera_frame_times exposing lost).length)
              Option.none)) := by
  refine ⟨get_video_frame_times_never_ok, rfl, ?_⟩
  intro α exposing lost V
  obtain ⟨hlen, htake, hpad⟩ :=
    corrected_frame_times_true_spec (uncorrected_camera_frame_times exposing lost) V
  refine ⟨corrected_frame_times (uncorrected_camera_frame_times exposing lost) V true,
    ?_, hlen, htake, hpad⟩
  simp only [get_video_frame_times_single_camera]
  rw [if_neg (fun hc => hc.2 hlen)]

/-- Witness for C1: the full function errors on `syncA`, and the
per-camera body at 3 raw edges, one lost frame and video frame count 5
succeeds with length 5. -/
theorem claim_C1_witness :
    get_video_frame_times syncA fingerprintsABC (fun _ => []) (fun _ => 5) true ≠
      Except.ok [] ∧
    ∃ l, get_video_frame_times_single_camera ([10, 20, 30] : List ℤ) [1] 5 true =
      Except.ok l ∧ l.length = 5 := by
  obtain ⟨l, h1, h2, -, -⟩ := claim_C1_corrected_length_invariant.2.2 ℤ [10, 20, 30] [1] 5
  exact ⟨claim_C1_corrected_length_invariant.1 syncA fingerprintsABC
    (fun _ => []) (fun _ => 5) true [], ⟨l, h1, h2⟩⟩

/-- Claim C6 (the code, not the claim, is at fault): no frame-timestamp
array is ever returned by the real `get_video_frame_times` — the resolver
call of mvr.py line 447 raises on every session (first conjunct; second:
the concrete error on `syncC`), so no returned array carries the claimed
leading `NaN`. The claimed behavior is what the per-camera body implements
(third conjunct): for every video with at least one physical frame, the
corrected array it builds has `NaN` at index 0 — the prepended
metadata-frame entry (a zero-frame video would be truncated to an empty
array, which is why the bound `1 ≤ V` is needed even for the intended
code). -/
theorem claim_C6_metadata_nan_entry :
    (∀ (sync : SyncData) (cexp : Role → ℤ) (lost : Role → List ℕ)
      (nfv : Role → ℕ) (ac : Bool) (out : List (Role × List (Option Frac))),
      get_video_frame_times sync cexp lost nfv ac ≠ Except.ok out) ∧
    get_video_frame_times syncC fingerprintsABC (fun _ => [0]) (fun _ => 3) true =
      Except.error PyError.valueErrorNotInTuple ∧
    (∀ (α : Type) (exposing : List α) (lost : List ℕ) (V : ℕ), 1 ≤ V →
      ∀ l, get_video_frame_times_single_camera exposing lost V true = Except.ok l →
        l.head? = some Option.none) := by
  refine ⟨get_video_frame_times_never_ok, rfl, ?_⟩
  intro α exposing lost V hV l h
  have hspec := corrected_frame_times_true_spec (uncorrected_camera_frame_times exposing lost) V
  simp only [get_video_frame_times_single_camera] at h
  rw [if_neg (fun hc => hc.2 hspec.1)] at h
  simp only [Except.ok.injEq] at h
  rcases Nat.le_total V (uncorrected_camera_frame_times exposing lost).length with hle | hge
  · rw [← h, hspec.2.1 hle]
    cases V with
    | zero => omega
    | succ n => simp [uncorrected_camera_frame_times]
  · rw [← h, hspec.2.2 hge]
    simp [uncorrected_camera_frame_times]

/-- Witness for C6: one raw edge, no lost frames, video frame count 2 —
the per-camera body returns an array headed by `NaN`. -/
theorem claim_C6_witness :
    1 ≤ 2 ∧ [Option.none, some (5 : ℤ)].head? = some Option.none :=
  ⟨by omega, claim_C6_metadata_nan_entry.2.2 ℤ [(5 : ℤ)] [] 2 (by omega)
    [Option.none, some 5] rfl⟩

/-- Claim C2 (the code, not the claim, is at fault): the source's
wiring-order validation can never succeed — `tuple.index` is passed the
float start time instead of the line label, so EVERY call of
`get_camera_sync_line_name_mapping` raises `ValueError` (first conjunct:
no input returns a mapping; second: on the adjacency-satisfying session
`syncA` the raised error is the `tuple.index` `ValueError`, not a wiring
diagnostic). With the one-token fix (`.index` on the label, as the assert
message and the function's own doctest describe), the resolver behaves as
the claim states: it returns a mapping on `syncA`, where every readout
line is adjacent to its exposing line, and raises the diagnostic
`AssertionError` on `syncB`, where adjacency is violated. -/
theorem claim_C2_wiring_order_check :
    (∀ (sync : SyncData) (cexp : Role → ℤ) (m : List (Role × SyncCam)),
      get_camera_sync_line_name_mapping sync cexp ≠ Except.ok m) ∧
    get_camera_sync_line_name_mapping syncA fingerprintsABC =
      Except.error PyError.valueErrorNotInTuple ∧
    get_camera_sync_line_name_mapping_intended syncA fingerprintsABC =
      Except.ok [(Role.behavior, SyncCam.beh), (Role.face, SyncCam.face),
        (Role.eye, SyncCam.eye)] ∧
    get_camera_sync_line_name_mapping_intended syncB fingerprintsABC =
      Except.error PyError.assertionError :=
  ⟨get_camera_sync_line_name_mapping_never_ok, rfl, rfl, rfl⟩

/-- The running minimum of `pyMinByAux` is the seed or a scanned element,
its key is at most the seed's, and at most every scanned element's. -/
theorem pyMinByAux_spec {α : Type} (f : α → ℤ) :
    ∀ (l : List α) (m : α),
      (pyMinByAux f m l = m ∨ pyMinByAux f m l ∈ l) ∧
      f (pyMinByAux f m l) ≤ f m ∧ ∀ y ∈ l, f (pyMinByAux f m l) ≤ f y := by
  intro l
  induction l with
  | nil => intro m; exact ⟨Or.inl rfl, le_refl _, by simp⟩
  | cons x xs ih =>
    intro m
    by_cases hx : f x < f m
    · simp only [pyMinByAux, if_pos hx]
      obtain ⟨h1, h2, h3⟩ := ih x
      refine ⟨?_, le_trans h2 (le_of_lt hx), ?_⟩
      · rcases h1 with h | h
        · exact Or.inr (by rw [h]; exact List.mem_cons_self x xs)
        · exact Or.inr (List.mem_cons_of_mem x h)
      · intro y hy
        rcases List.mem_cons.mp hy with rfl | hy2
        · exact h2
        · exact h3 y hy2
    · simp only [pyMinByAux, if_neg hx]
      obtain ⟨h1, h2, h3⟩ := ih m
      refine ⟨h1.imp id (List.mem_cons_of_mem x), h2, ?_⟩
      · intro y hy
        rcases List.mem_cons.mp hy with rfl | hy2
        · exact le_trans h2 (le_of_not_lt hx)
        · exact h3 y hy2

/-- Claim C4 (the code, not the claim, is at fault): the
minimum-absolute-difference selection of mvr.py lines 393-396 does pick,
for each role's nominal fingerprint duration, a line of minimal
`abs(expected - actual)` (first conjunct, for the embedded `min(...,
key=...)`); but the resolver as written never returns the resulting
assignment — on the mis-wired session `syncC` it raises the `tuple.index`
`ValueError` (second conjunct), while with the intended wiring-order check
it returns exactly the fingerprint-matched mapping
behavior ↦ face, face ↦ beh, eye ↦ eye (third conjunct). -/
theorem claim_C4_fingerprint_matching :
    (∀ (l : List (SyncCam × ℤ)) (d : ℤ) (x : SyncCam × ℤ),
      pyMinBy l (fun pr => |d - pr.2|) = some x →
        x ∈ l ∧ ∀ y ∈ l, |d - x.2| ≤ |d - y.2|) ∧
    get_camera_sync_line_name_mapping syncC fingerprintsABC =
      Except.error PyError.valueErrorNotInTuple ∧
    get_camera_sync_line_name_mapping_intended syncC fingerprintsABC =
      Except.ok [(Role.behavior, SyncCam.face), (Role.face, SyncCam.beh),
        (Role.eye, SyncCam.eye)] := by
  refine ⟨?_, rfl, rfl⟩
  intro l d x h
  cases l with
  | nil => exact Option.noConfusion h
  | cons a as =>
    simp only [pyMinBy, Option.some.injEq] at h
    obtain ⟨h1, h2, h3⟩ := pyMinByAux_spec (fun pr => |d - pr.2|) as a
    rw [h] at h1 h2 h3
    refine ⟨?_, ?_⟩
    · rcases h1 with hm | hm
      · rw [hm]; exact List.mem_cons_self a as
      · exact List.mem_cons_of_mem a hm
    · intro y hy
      rcases List.mem_cons.mp hy with rfl | hy2
      · exact h2
      · exact h3 y hy2

/-- Witness for C4's selection property at a concrete duration table:
nominal 100 ms against measured (beh 200, face 100, eye 300) selects the
face line. -/
theorem claim_C4_witness :
    (SyncCam.face, (100 : ℤ)) ∈
      [(SyncCam.beh, (200 : ℤ)), (SyncCam.face, 100), (SyncCam.eye, 300)] ∧
    ∀ y ∈ [(SyncCam.beh, (200 : ℤ)), (SyncCam.face, 100), (SyncCam.eye, 300)],
      |(100 : ℤ) - (SyncCam.face, (100 : ℤ)).2| ≤ |(100 : ℤ) - y.2| :=
  claim_C4_fingerprint_matching.1
    [(SyncCam.beh, (200 : ℤ)), (SyncCam.face, 100), (SyncCam.eye, 300)] 100
    (SyncCam.face, (100 : ℤ)) rfl

/-- Counterexample to claim C7 as stated: an all-black, all-border-correct
strip decodes to 0 even though the brightness heuristic does NOT trigger
(its bits are black and its mean is far below 250) — the all-zero bit sum
of the normal path yields 0, so "decodes to 0 only when the heuristic also
triggers" is false. -/
theorem claim_C7_counterexample :
    get_barcode_value allBlackStrip = 0 ∧
    metadata_frame_condition allBlackStrip = false :=
  ⟨rfl, rfl⟩

/-- Claim C7 (amended): `get_barcode_value` takes the metadata-frame
shortcut (returning 0) exactly when all 20 decoded cells read white AND
the rounded whole-strip mean exceeds 250; a strip whose cells all read
white but whose rounded mean is at most 250 decodes via the normal bit
path to `2^20 - 1 = 1048575`; and an all-black, all-border-correct strip
decodes to 0 via the normal bit path with the heuristic not triggering. -/
theorem claim_C7_amended :
    (∀ img : PixelImage,
      (metadata_frame_condition img = true ↔
        ((∀ x ∈ barcode_values img, x = 1) ∧ 250 < pyRound (npMean img))) ∧
      (metadata_frame_condition img = true → get_barcode_value img = 0)) ∧
    (∀ img : PixelImage, (∀ x ∈ barcode_values img, x = 1) →
      pyRound (npMean img) ≤ 250 → get_barcode_value img = 1048575) ∧
    (get_barcode_value allBlackStrip = 0 ∧
      metadata_frame_condition allBlackStrip = false) := by
  refine ⟨?_, ?_, rfl, rfl⟩
  · intro img
    constructor
    · unfold metadata_frame_condition
      simp [List.all_eq_true, List.mem_reverse]
    · intro h
      unfold get_barcode_value
      rw [if_pos h]
  · intro img hall hle
    have hcond : metadata_frame_condition img = false := by
      unfold metadata_frame_condition
      have hd : decide (250 < pyRound (npMean img)) = false := by
        simp [not_lt.mpr hle]
      simp [hd]
    have hvals : barcode_values img = List.replicate 20 1 :=
      List.eq_replicate_iff.mpr ⟨rfl, hall⟩
    simp only [get_barcode_value, hcond, Bool.false_eq_true, if_false]
    rw [hvals, List.reverse_replicate]
    rfl

/-- Witness for C7: the fully white strip triggers the heuristic and
returns 0; the white-cells-dark-borders strip stays below the threshold
and decodes to `2^20 - 1`. -/
theorem claim_C7_witness :
    get_barcode_value allWhiteStrip = 0 ∧
    get_barcode_value whiteBitsLowStrip = 1048575 :=
  ⟨(claim_C7_amended.1 allWhiteStrip).2 rfl,
    claim_C7_amended.2.1 whiteBitsLowStrip (by decide) (by decide)⟩

/-- Counterexample to claim C8 as stated: the Python boolean `True` is
truthy, yet `get_frame_number_from_barcode` raises (its check is
`== "true"`, an exact string comparison, not a truthiness test). -/
theorem claim_C8_counterexample :
    pyTruthy (JsonValue.bool true) = true ∧
    get_frame_number_from_barcode (some (JsonValue.bool true)) [[0]] 1 =
      Except.error PyError.valueErrorImprintNotEnabled :=
  ⟨rfl, rfl⟩

/-- Claim C8 (amended): `get_frame_number_from_barcode` raises the
imprint-unavailable `ValueError` exactly when the metadata flag value is
NOT the exact string `"true"` (absent, boolean, numeric and every other
string value all raise — truthiness is irrelevant); when the flag is the
string `"true"` the lookup proceeds to decode the requested frame. -/
theorem claim_C8_amended (flag : Option JsonValue) (img : PixelImage) (n : ℤ) :
    (get_frame_number_from_barcode flag img n =
        Except.error PyError.valueErrorImprintNotEnabled ↔
      flag ≠ some (JsonValue.str ['t', 'r', 'u', 'e'])) ∧
    (flag = some (JsonValue.str ['t', 'r', 'u', 'e']) →
      get_frame_number_from_barcode flag img n = get_barcode_value_from_frame img n) := by
  have hkey : pyEq (flag.getD (JsonValue.bool false))
      (JsonValue.str ['t', 'r', 'u', 'e']) = true ↔
      flag = some (JsonValue.str ['t', 'r', 'u', 'e']) := by
    cases flag with
    | none => simp [pyEq, Option.getD]
    | some v =>
      cases v with
      | bool b => simp [pyEq]
      | str s => simp [pyEq]
      | int k => simp [pyEq]
  by_cases hf : flag = some (JsonValue.str ['t', 'r', 'u', 'e'])
  · have hgate : ¬ ¬ (pyEq (flag.getD (JsonValue.bool false))
        (JsonValue.str ['t', 'r', 'u', 'e']) = true) := not_not_intro (hkey.mpr hf)
    unfold get_frame_number_from_barcode
    rw [if_neg hgate]
    refine ⟨?_, fun _ => rfl⟩
    have hni : get_barcode_value_from_frame img n ≠
        Except.error PyError.valueErrorImprintNotEnabled := by
      unfold get_barcode_value_from_frame
      simp only []
      split_ifs with h1
      · simp
      · simp
    constructor
    · intro hcontra
      exact absurd hcontra hni
    · intro hne
      exact absurd hf hne
  · have hgate : ¬ (pyEq (flag.getD (JsonValue.bool false))
        (JsonValue.str ['t', 'r', 'u', 'e']) = true) := fun hp => hf (hkey.mp hp)
    unfold get_frame_number_from_barcode
    rw [if_pos hgate]
    exact ⟨iff_of_true rfl hf, fun hflag => absurd hflag hf⟩

/-- Witness for C8: the exact string `"true"` lets the lookup proceed to
the decode stage. -/
theorem claim_C8_witness :
    get_frame_number_from_barcode (some (JsonValue.str ['t', 'r', 'u', 'e']))
      whiteBitsLowStrip 1 = get_barcode_value_from_frame whiteBitsLowStrip 1 :=
  (claim_C8_amended (some (JsonValue.str ['t', 'r', 'u', 'e'])) whiteBitsLowStrip 1).2 rfl

/-- Witness for C5 at the source's doctest input:
`remove_lost_frame_times([1., 2., 3., 4., 5.], [1, 3])`. -/
theorem claim_C5_witness :
    remove_lost_frame_times [(1 : ℤ), 2, 3, 4, 5] [1, 3] =
      removeIdxSpec [1, 3] 0 [(1 : ℤ), 2, 3, 4, 5] ∧
    (remove_lost_frame_times [(1 : ℤ), 2, 3, 4, 5] [1, 3]).Sublist [(1 : ℤ), 2, 3, 4, 5] ∧
    remove_lost_frame_times [(1 : ℤ), 2, 3, 4, 5] [] = [(1 : ℤ), 2, 3, 4, 5] :=
  claim_C5_remove_lost_frame_times [(1 : ℤ), 2, 3, 4, 5] [1, 3]

/-- Witness for C2's universal conjunct at the concrete session `syncA`. -/
theorem claim_C2_witness :
    get_camera_sync_line_name_mapping syncA fingerprintsABC ≠ Except.ok [] :=
  claim_C2_wiring_order_check.1 syncA fingerprintsABC []
